import Mathlib

/-!
Verification of `src/eh2telegraph/src/http_proxy.rs`: the `ProxiedClient`
HTTP wrapper that optionally routes every request through a forward proxy.

The file has two layers:
* a model of the external collaborators (the `reqwest` transport and the
  configuration lookup), written from the spec because their code is not
  part of this repository;
* a faithful shallow embedding of `http_proxy.rs` itself: `Proxy`,
  `ProxiedClient`, the constructors `new`, `new_from_config`,
  `with_default_headers`, the six macro-generated verb methods and the
  generic `request` method.

Fatal `expect` panics in the source are embedded as `Except.error` with the
source's panic message; tracing warnings are embedded as a returned list of
warning strings.
-/

namespace HttpProxy

/-- Modelled from the spec: the transport collaborator's header-value type,
"constructible from a string that may fail to parse".  A value is
header-safe when every character is horizontal tab or visible ASCII
(codepoints 32 to 126); the empty string is header-safe. -/
def headerSafe (s : String) : Bool :=
  s.toList.all fun c => c = '\t' || (32 ≤ c.toNat && c.toNat ≤ 126)

/-- Modelled from the spec: a header value, carrying its textual form. -/
structure HeaderValue where
  raw : String
  deriving DecidableEq, Repr

/-- Modelled from the spec: fallible parse of a string into a header value. -/
def HeaderValue.parse (s : String) : Option HeaderValue :=
  if headerSafe s then some ⟨s⟩ else none

/-- Split a character list at the first occurrence of `"://"`, returning the
characters before it and the characters after it. -/
def splitScheme : List Char → Option (List Char × List Char)
  | [] => none
  | ':' :: '/' :: '/' :: rest => some ([], rest)
  | c :: rest =>
      match splitScheme rest with
      | some (sch, rem) => some (c :: sch, rem)
      | none => none

/-- Modelled from the spec: a string is an absolute URL when it has the shape
`scheme "://" rest` with a non-empty alphabetic scheme and a non-empty
remainder.  In particular the empty string is not an absolute URL. -/
def isAbsoluteUrl (s : String) : Bool :=
  match splitScheme s.toList with
  | some (sch, rem) => !sch.isEmpty && !rem.isEmpty && sch.all Char.isAlpha
  | none => false

/-- Modelled from the spec: the transport collaborator's URL type, an
absolute URL carrying its textual form. -/
structure Url where
  raw : String
  deriving DecidableEq, Repr

/-- Modelled from the spec: fallible parse of a string into an absolute URL;
the model preserves the textual form of a successfully parsed URL. -/
def Url.parse (s : String) : Option Url :=
  if isAbsoluteUrl s then some ⟨s⟩ else none

/-- HTTP methods: the six verbs the client exposes by name, plus the
remaining standard methods reachable through the generic `request`. -/
inductive Method
  | GET
  | POST
  | HEAD
  | PUT
  | DELETE
  | PATCH
  | OPTIONS
  | TRACE
  | CONNECT
  deriving DecidableEq, Repr

/-- Modelled from the spec: the transport collaborator's client handle,
holding the two pieces of configuration this component sets through the
builder: an optional per-request timeout (in seconds) and a set of default
headers attached to every request at dispatch. -/
structure Client where
  timeout : Option Nat
  defaultHeaders : List (String × HeaderValue)
  deriving DecidableEq, Repr

/-- Modelled from the spec: a default-constructed transport client carries
the transport's default settings: no configured timeout and no default
headers. -/
def Client.default : Client :=
  { timeout := none, defaultHeaders := [] }

/-- Modelled from the spec: an in-memory request representation under
construction — method, target URL (its textual form) and the headers
attached so far.  Nothing is dispatched. -/
structure RequestBuilder where
  method : Method
  target : String
  headers : List (String × String)
  deriving DecidableEq, Repr

/-- Modelled from the spec: the transport's generic request-builder factory,
parameterized by method and target URL. -/
def Client.request (_self : Client) (method : Method) (url : String) :
    RequestBuilder :=
  { method := method, target := url, headers := [] }

/-- Modelled from the spec: the transport's per-verb factory for GET. -/
def Client.get (self : Client) (url : String) : RequestBuilder :=
  self.request Method.GET url

/-- Modelled from the spec: the transport's per-verb factory for POST. -/
def Client.post (self : Client) (url : String) : RequestBuilder :=
  self.request Method.POST url

/-- Modelled from the spec: the transport's per-verb factory for HEAD. -/
def Client.head (self : Client) (url : String) : RequestBuilder :=
  self.request Method.HEAD url

/-- Modelled from the spec: the transport's per-verb factory for PUT. -/
def Client.put (self : Client) (url : String) : RequestBuilder :=
  self.request Method.PUT url

/-- Modelled from the spec: the transport's per-verb factory for DELETE. -/
def Client.delete (self : Client) (url : String) : RequestBuilder :=
  self.request Method.DELETE url

/-- Modelled from the spec: the transport's per-verb factory for PATCH. -/
def Client.patch (self : Client) (url : String) : RequestBuilder :=
  self.request Method.PATCH url

/-- Modelled from the spec: attaching one more header to a request builder. -/
def RequestBuilder.header (self : RequestBuilder) (k v : String) :
    RequestBuilder :=
  { self with headers := self.headers ++ [(k, v)] }

/-- `const TIMEOUT: Duration = Duration::from_secs(30);` -/
def TIMEOUT : Nat := 30

/-- `const CONFIG_KEY: &str = "proxy";` -/
def CONFIG_KEY : String := "proxy"

/-- `struct ProxyConfig` — the deserialized configuration entry; both fields
default to the empty string when absent. -/
structure ProxyConfig where
  endpoint : String
  authorization : String
  deriving DecidableEq, Repr

/-- `struct Proxy` — the stored proxy routing state. -/
structure Proxy where
  endpoint : Url
  authorization : HeaderValue
  deriving DecidableEq, Repr

/-- `struct ProxiedClient` — optional proxy state plus the transport. -/
structure ProxiedClient where
  proxy : Option Proxy
  inner : Client
  deriving DecidableEq, Repr

/-- `#[derive(Default)]` on `ProxiedClient`: no proxy, default transport. -/
def ProxiedClient.default : ProxiedClient :=
  { proxy := none, inner := Client.default }

/-- `ProxiedClient::new`.  The two `.expect` panics on parse failure are
embedded as `Except.error` with the source's panic message; the transport is
built with the 30-second timeout. -/
def ProxiedClient.new (endpoint authorization : String) :
    Except String ProxiedClient :=
  match Url.parse endpoint with
  | none => Except.error "unable to parse proxy endpoint"
  | some ep =>
    match HeaderValue.parse authorization with
    | none => Except.error "unable to parse proxy authorization"
    | some auth =>
      Except.ok
        { proxy := some { endpoint := ep, authorization := auth }
          inner := { timeout := some TIMEOUT, defaultHeaders := [] } }

/-- The warning message logged by `new_from_config` when the configuration
entry is present but a field is empty. -/
def incompleteWarning (cfg : ProxyConfig) : String :=
  "proxy config incomplete (endpoint: " ++
    (if cfg.endpoint.isEmpty then "empty" else "set") ++
    ", authorization: " ++
    (if cfg.authorization.isEmpty then "empty" else "set") ++
    "), using direct connection"

/-- The warning message logged by `new_from_config` when no configuration
entry is found. -/
def missingWarning : String :=
  "no proxy config found, using direct connection"

/-- `ProxiedClient::new_from_config`.  The result of
`config::parse::<ProxyConfig>(CONFIG_KEY)` is passed as the argument
(`config::parse` lives outside this repository's sources; per the spec it
returns an optional deserialized entry or a fatal error on a malformed
source).  The `.expect` on a lookup error is embedded as `Except.error`;
`tracing::warn!` calls are embedded as the returned list of warnings. -/
def ProxiedClient.new_from_config
    (lookup : Except String (Option ProxyConfig)) :
    Except String (ProxiedClient × List String) :=
  match lookup with
  | Except.error e => Except.error e
  | Except.ok (some cfg) =>
      if !cfg.endpoint.isEmpty && !cfg.authorization.isEmpty then
        (ProxiedClient.new cfg.endpoint cfg.authorization).map fun c => (c, [])
      else
        Except.ok (ProxiedClient.default, [incompleteWarning cfg])
  | Except.ok none =>
      Except.ok (ProxiedClient.default, [missingWarning])

/-- `ProxiedClient::with_default_headers`: rebuild the transport with the
30-second timeout and the given default headers, keep the proxy state
(`..self`). -/
def ProxiedClient.with_default_headers (self : ProxiedClient)
    (headers : List (String × HeaderValue)) : ProxiedClient :=
  { self with
    inner := { timeout := some TIMEOUT, defaultHeaders := headers } }

/-- `impl_method!(get)` expansion. -/
def ProxiedClient.get (self : ProxiedClient) (url : String) : RequestBuilder :=
  match self.proxy with
  | some p =>
      ((self.inner.get p.endpoint.raw).header "X-Forwarded-For" url).header
        "X-Authorization" p.authorization.raw
  | none => self.inner.get url

/-- `impl_method!(post)` expansion. -/
def ProxiedClient.post (self : ProxiedClient) (url : String) : RequestBuilder :=
  match self.proxy with
  | some p =>
      ((self.inner.post p.endpoint.raw).header "X-Forwarded-For" url).header
        "X-Authorization" p.authorization.raw
  | none => self.inner.post url

/-- `impl_method!(head)` expansion. -/
def ProxiedClient.head (self : ProxiedClient) (url : String) : RequestBuilder :=
  match self.proxy with
  | some p =>
      ((self.inner.head p.endpoint.raw).header "X-Forwarded-For" url).header
        "X-Authorization" p.authorization.raw
  | none => self.inner.head url

/-- `impl_method!(put)` expansion. -/
def ProxiedClient.put (self : ProxiedClient) (url : String) : RequestBuilder :=
  match self.proxy with
  | some p =>
      ((self.inner.put p.endpoint.raw).header "X-Forwarded-For" url).header
        "X-Authorization" p.authorization.raw
  | none => self.inner.put url

/-- `impl_method!(delete)` expansion. -/
def ProxiedClient.delete (self : ProxiedClient) (url : String) :
    RequestBuilder :=
  match self.proxy with
  | some p =>
      ((self.inner.delete p.endpoint.raw).header "X-Forwarded-For" url).header
        "X-Authorization" p.authorization.raw
  | none => self.inner.delete url

/-- `impl_method!(patch)` expansion. -/
def ProxiedClient.patch (self : ProxiedClient) (url : String) :
    RequestBuilder :=
  match self.proxy with
  | some p =>
      ((self.inner.patch p.endpoint.raw).header "X-Forwarded-For" url).header
        "X-Authorization" p.authorization.raw
  | none => self.inner.patch url

/-- `ProxiedClient::request` — the generic method-parameterized builder. -/
def ProxiedClient.request (self : ProxiedClient) (method : Method)
    (url : String) : RequestBuilder :=
  match self.proxy with
  | some p =>
      ((self.inner.request method p.endpoint.raw).header "X-Forwarded-For"
        url).header "X-Authorization" p.authorization.raw
  | none => self.inner.request method url

/-- The two headers a proxied client injects, in attachment order. -/
def injectedHeaders (url : String) (p : Proxy) : List (String × String) :=
  [("X-Forwarded-For", url), ("X-Authorization", p.authorization.raw)]

/-- `c.isProxied` — whether the client is in proxied mode. -/
def ProxiedClient.isProxied (c : ProxiedClient) : Bool :=
  c.proxy.isSome

/-- A sample proxy used by concrete witnesses. -/
def sampleProxy : Proxy :=
  { endpoint := ⟨"https://proxy.example.com/"⟩, authorization := ⟨"secret"⟩ }

/-- A sample proxied-mode client used by concrete witnesses. -/
def sampleProxied : ProxiedClient :=
  { proxy := some sampleProxy
    inner := { timeout := some TIMEOUT, defaultHeaders := [] } }

/-- Claim C1: for every client in proxied mode, every caller URL string and
every request-building entry point (the six verbs and the generic
method-parameterized `request`), the built request targets the proxy's
stored endpoint URL (never the caller's URL) with the corresponding method
and carries exactly the two injected headers: `X-Forwarded-For` equal to
the caller's original destination URL string and `X-Authorization` equal to
the proxy's stored credential. -/
theorem C1_proxied_request_building (c : ProxiedClient) (p : Proxy)
    (url : String) (m : Method) (h : c.proxy = some p) :
    c.get url = { method := Method.GET, target := p.endpoint.raw,
                  headers := injectedHeaders url p } ∧
    c.post url = { method := Method.POST, target := p.endpoint.raw,
                   headers := injectedHeaders url p } ∧
    c.head url = { method := Method.HEAD, target := p.endpoint.raw,
                   headers := injectedHeaders url p } ∧
    c.put url = { method := Method.PUT, target := p.endpoint.raw,
                  headers := injectedHeaders url p } ∧
    c.delete url = { method := Method.DELETE, target := p.endpoint.raw,
                     headers := injectedHeaders url p } ∧
    c.patch url = { method := Method.PATCH, target := p.endpoint.raw,
                    headers := injectedHeaders url p } ∧
    c.request m url = { method := m, target := p.endpoint.raw,
                        headers := injectedHeaders url p } := by
  simp [ProxiedClient.get, ProxiedClient.post, ProxiedClient.head,
    ProxiedClient.put, ProxiedClient.delete, ProxiedClient.patch,
    ProxiedClient.request, Client.get, Client.post, Client.head, Client.put,
    Client.delete, Client.patch, Client.request, RequestBuilder.header,
    injectedHeaders, h]

/-- Concrete witness for C1: a proxied client building a GET request for
`"https://example.com/a"` targets the proxy endpoint and carries the two
injected headers. -/
theorem C1_witness :
    sampleProxied.get "https://example.com/a" =
      { method := Method.GET, target := "https://proxy.example.com/",
        headers := [("X-Forwarded-For", "https://example.com/a"),
                    ("X-Authorization", "secret")] } :=
  ((C1_proxied_request_building sampleProxied sampleProxy
    "https://example.com/a" Method.GET rfl).1).trans rfl

/-- Claim C2: for every client in direct mode, every caller URL string and
every entry point, the built request targets the caller's URL exactly as
given with the given method and injects no header at all. -/
theorem C2_direct_request_building (c : ProxiedClient) (url : String)
    (m : Method) (h : c.proxy = none) :
    c.get url = { method := Method.GET, target := url, headers := [] } ∧
    c.post url = { method := Method.POST, target := url, headers := [] } ∧
    c.head url = { method := Method.HEAD, target := url, headers := [] } ∧
    c.put url = { method := Method.PUT, target := url, headers := [] } ∧
    c.delete url = { method := Method.DELETE, target := url, headers := [] } ∧
    c.patch url = { method := Method.PATCH, target := url, headers := [] } ∧
    c.request m url = { method := m, target := url, headers := [] } := by
  simp [ProxiedClient.get, ProxiedClient.post, ProxiedClient.head,
    ProxiedClient.put, ProxiedClient.delete, ProxiedClient.patch,
    ProxiedClient.request, Client.get, Client.post, Client.head, Client.put,
    Client.delete, Client.patch, Client.request, h]

/-- Concrete witness for C2: the default (direct) client building a GET
request for `"https://example.com/a"` targets that URL and injects no
header. -/
theorem C2_witness :
    ProxiedClient.default.get "https://example.com/a" =
      { method := Method.GET, target := "https://example.com/a",
        headers := [] } :=
  (C2_direct_request_building ProxiedClient.default "https://example.com/a"
    Method.GET rfl).1

/-- Counterexample to claim C3 as stated: a configuration entry with both
fields non-empty but a malformed endpoint (`"notaurl"` is not an absolute
URL) does not yield a proxied client — the delegation to `new` fails
fatally with its endpoint-parse panic. -/
theorem C3_counterexample :
    ProxiedClient.new_from_config
        (Except.ok (some { endpoint := "notaurl", authorization := "secret" })) =
      Except.error "unable to parse proxy endpoint" := rfl

/-- Claim C3 (amended): the decision table of `new_from_config`.  When the
lookup yields an entry with both fields non-empty, it delegates to
`new(endpoint, authorization)`, which yields a proxied client with fields
matching the configuration values when the endpoint parses as an absolute
URL and the authorization is header-safe, and propagates `new`'s fatal
parse error otherwise; when either field is empty it logs the incompleteness
warning and falls back to the direct-mode default client without failing;
when the entry is absent it logs the missing-config warning and falls back
likewise; and when the lookup itself fails (malformed source) it fails
fatally with that error. -/
theorem C3_decision_table (lookup : Except String (Option ProxyConfig))
    (cfg : ProxyConfig) (e : String) :
    (lookup = Except.ok (some cfg) → cfg.endpoint.isEmpty = false →
      cfg.authorization.isEmpty = false →
      ProxiedClient.new_from_config lookup =
        (ProxiedClient.new cfg.endpoint cfg.authorization).map fun c =>
          (c, [])) ∧
    (∀ u a, lookup = Except.ok (some cfg) → cfg.endpoint.isEmpty = false →
      cfg.authorization.isEmpty = false →
      Url.parse cfg.endpoint = some u →
      HeaderValue.parse cfg.authorization = some a →
      ProxiedClient.new_from_config lookup =
        Except.ok
          ({ proxy := some { endpoint := u, authorization := a }
             inner := { timeout := some TIMEOUT, defaultHeaders := [] } },
           [])) ∧
    (lookup = Except.ok (some cfg) →
      (cfg.endpoint.isEmpty = true ∨ cfg.authorization.isEmpty = true) →
      ProxiedClient.new_from_config lookup =
        Except.ok (ProxiedClient.default, [incompleteWarning cfg])) ∧
    (lookup = Except.ok none →
      ProxiedClient.new_from_config lookup =
        Except.ok (ProxiedClient.default, [missingWarning])) ∧
    (lookup = Except.error e →
      ProxiedClient.new_from_config lookup = Except.error e) := by
  refine ⟨?_, ?_, ?_, ?_, ?_⟩
  · intro hl he ha
    subst hl
    simp [ProxiedClient.new_from_config, he, ha]
  · intro u a hl he ha hu hv
    subst hl
    simp [ProxiedClient.new_from_config, ProxiedClient.new, Except.map, he,
      ha, hu, hv]
  · intro hl h
    subst hl
    rcases h with h | h <;> simp [ProxiedClient.new_from_config, h]
  · intro hl
    subst hl
    rfl
  · intro hl
    subst hl
    rfl

/-- Concrete witness for C3: a configuration entry with an empty endpoint
falls back to the direct-mode default client with the incompleteness
warning. -/
theorem C3_witness :
    ProxiedClient.new_from_config
        (Except.ok (some { endpoint := "", authorization := "tok" })) =
      Except.ok (ProxiedClient.default,
        [incompleteWarning { endpoint := "", authorization := "tok" }]) :=
  ((C3_decision_table
      (Except.ok (some { endpoint := "", authorization := "tok" }))
      { endpoint := "", authorization := "tok" } "").2.2.1) rfl (Or.inl rfl)

/-- Counterexample to claim C4 as stated: an empty authorization string is
header-safe, so `new("https://proxy.example.com/", "")` succeeds and
silently produces a proxied client whose stored authorization is empty —
construction does not fail fast on an empty authorization field. -/
theorem C4_counterexample :
    ProxiedClient.new "https://proxy.example.com/" "" =
      Except.ok
        { proxy := some { endpoint := { raw := "https://proxy.example.com/" }
                          authorization := { raw := "" } }
          inner := { timeout := some TIMEOUT, defaultHeaders := [] } } := rfl

/-- Claim C4 (amended): `new(endpoint, authorization)` fails fast (fatally)
exactly when the endpoint does not parse as an absolute URL or the
authorization is not header-safe.  An empty endpoint is not an absolute URL
and therefore fails, but an empty authorization is header-safe and is
accepted; consequently every Proxy value constructed by `new` has an
endpoint that is a valid absolute URL, while its authorization may be
empty. -/
theorem C4_construction_guard (ep au : String) (c : ProxiedClient) :
    (ProxiedClient.new ep au = Except.ok c →
      ∃ u a, Url.parse ep = some u ∧ HeaderValue.parse au = some a ∧
        c.proxy = some { endpoint := u, authorization := a } ∧
        isAbsoluteUrl u.raw = true ∧ u.raw = ep ∧ a.raw = au) ∧
    (isAbsoluteUrl ep = false →
      ProxiedClient.new ep au = Except.error "unable to parse proxy endpoint") ∧
    (ep = "" →
      ProxiedClient.new ep au = Except.error "unable to parse proxy endpoint") ∧
    (isAbsoluteUrl ep = true → headerSafe au = false →
      ProxiedClient.new ep au =
        Except.error "unable to parse proxy authorization") := by
  refine ⟨?_, ?_, ?_, ?_⟩
  · intro h
    unfold ProxiedClient.new at h
    cases hu : Url.parse ep with
    | none => rw [hu] at h; exact absurd h (by simp)
    | some u =>
      rw [hu] at h
      cases ha : HeaderValue.parse au with
      | none => rw [ha] at h; exact absurd h (by simp)
      | some a =>
        rw [ha] at h
        simp only [Except.ok.injEq] at h
        subst h
        refine ⟨u, a, rfl, rfl, rfl, ?_, ?_, ?_⟩
        · unfold Url.parse at hu
          by_cases habs : isAbsoluteUrl ep = true
          · have : u.raw = ep := by
              rw [habs] at hu
              simp at hu
              rw [← hu]
            rw [this]; exact habs
          · rw [if_neg habs] at hu; exact absurd hu (by simp)
        · unfold Url.parse at hu
          by_cases habs : isAbsoluteUrl ep = true
          · rw [habs] at hu; simp at hu; rw [← hu]
          · rw [if_neg habs] at hu; exact absurd hu (by simp)
        · unfold HeaderValue.parse at ha
          by_cases hsafe : headerSafe au = true
          · rw [hsafe] at ha; simp at ha; rw [← ha]
          · rw [if_neg hsafe] at ha; exact absurd ha (by simp)
  · intro habs
    unfold ProxiedClient.new Url.parse
    rw [habs]
    rfl
  · intro he
    subst he
    rfl
  · intro habs hsafe
    unfold ProxiedClient.new Url.parse HeaderValue.parse
    rw [habs, hsafe]
    rfl

/-- Concrete witness for C4 (amended): an empty endpoint fails fast with the
endpoint-parse panic message. -/
theorem C4_witness :
    ProxiedClient.new "" "tok" =
      Except.error "unable to parse proxy endpoint" :=
  (C4_construction_guard "" "tok" ProxiedClient.default).2.2.1 rfl

/-- Claim C5: `with_default_headers` returns a new client sharing the same
proxy routing state as its input (a proxied client stays proxied with the
same endpoint and credential, a direct client stays direct), while the
augmentation (the default-header set) lives only in the returned value; in
this value-level embedding the operation is a pure function, so the input
client value is unchanged and remains usable. -/
theorem C5_with_default_headers_frame (c : ProxiedClient)
    (hs : List (String × HeaderValue)) :
    (c.with_default_headers hs).proxy = c.proxy ∧
    (c.with_default_headers hs).inner.defaultHeaders = hs :=
  ⟨rfl, rfl⟩

/-- Claim C6: for all valid non-empty (endpoint, authorization) pairs,
`new(endpoint, authorization)` yields a proxied-mode client whose stored
endpoint and authorization carry exactly the input strings. -/
theorem C6_new_roundtrip (ep au : String) (hep : isAbsoluteUrl ep = true)
    (hau : headerSafe au = true) (hne : ep ≠ "" ∧ au ≠ "") :
    ProxiedClient.new ep au =
      Except.ok
        { proxy := some { endpoint := { raw := ep }
                          authorization := { raw := au } }
          inner := { timeout := some TIMEOUT, defaultHeaders := [] } } := by
  simp [ProxiedClient.new, Url.parse, HeaderValue.parse, hep, hau]

/-- Concrete witness for C6: constructing from the sample endpoint and
credential stores exactly those strings. -/
theorem C6_witness :
    ProxiedClient.new "https://proxy.example.com/" "secret" =
      Except.ok sampleProxied :=
  (C6_new_roundtrip "https://proxy.example.com/" "secret" rfl rfl
    ⟨by decide, by decide⟩).trans rfl

/-- Claim C7: every client built by `new` has its underlying transport
configured with the fixed 30-second per-request timeout, and
`with_default_headers` rebuilds the transport preserving that same
timeout. -/
theorem C7_timeout_configuration (ep au : String) (c : ProxiedClient)
    (h : ProxiedClient.new ep au = Except.ok c) :
    c.inner.timeout = some 30 ∧
    ∀ hs, (c.with_default_headers hs).inner.timeout = some 30 := by
  unfold ProxiedClient.new at h
  cases hu : Url.parse ep with
  | none => rw [hu] at h; exact absurd h (by simp)
  | some u =>
    rw [hu] at h
    cases ha : HeaderValue.parse au with
    | none => rw [ha] at h; exact absurd h (by simp)
    | some a =>
      rw [ha] at h
      simp only [Except.ok.injEq] at h
      subst h
      exact ⟨rfl, fun hs => rfl⟩

/-- Concrete witness for C7: the sample client built by `new` carries the
30-second timeout, before and after `with_default_headers`. -/
theorem C7_witness :
    sampleProxied.inner.timeout = some 30 ∧
    ∀ hs, (sampleProxied.with_default_headers hs).inner.timeout = some 30 :=
  C7_timeout_configuration "https://proxy.example.com/" "secret"
    sampleProxied (by rfl)

/-- Claim C8: for every client, URL and verb, the verb-named entry point
builds exactly the same request as the generic `request` called with the
corresponding method, in both modes. -/
theorem C8_verb_entry_points_match_generic (c : ProxiedClient)
    (url : String) :
    c.get url = c.request Method.GET url ∧
    c.post url = c.request Method.POST url ∧
    c.head url = c.request Method.HEAD url ∧
    c.put url = c.request Method.PUT url ∧
    c.delete url = c.request Method.DELETE url ∧
    c.patch url = c.request Method.PATCH url := by
  obtain ⟨pr, inner⟩ := c
  cases pr <;> exact ⟨rfl, rfl, rfl, rfl, rfl, rfl⟩

/-- Claim C9: a client's mode is fixed at construction: the only operation
that yields a client, `with_default_headers`, preserves the proxy routing
state exactly (the request-building operations yield request builders, not
clients, so they cannot transition the mode either). -/
theorem C9_mode_fixed_for_lifetime (c : ProxiedClient)
    (hs : List (String × HeaderValue)) :
    (c.with_default_headers hs).isProxied = c.isProxied ∧
    (c.with_default_headers hs).proxy = c.proxy :=
  ⟨rfl, rfl⟩

/-- Claim C10: a direct-mode client obtained via `Default` — including both
fallback rows of `new_from_config` — carries the transport's default
settings, whose timeout is unset, not the 30-second timeout that `new`
configures. -/
theorem C10_default_transport_settings (cfg : ProxyConfig)
    (h : cfg.endpoint.isEmpty = true ∨ cfg.authorization.isEmpty = true) :
    ProxiedClient.default.inner = Client.default ∧
    Client.default.timeout = none ∧
    ProxiedClient.default.inner.timeout ≠ some 30 ∧
    ProxiedClient.new_from_config (Except.ok (some cfg)) =
      Except.ok (ProxiedClient.default, [incompleteWarning cfg]) ∧
    ProxiedClient.new_from_config (Except.ok none) =
      Except.ok (ProxiedClient.default, [missingWarning]) := by
  refine ⟨rfl, rfl, by simp [ProxiedClient.default, Client.default], ?_, rfl⟩
  rcases h with h | h <;> simp [ProxiedClient.new_from_config, h]

/-- Concrete witness for C10: the empty configuration entry falls back to
the default client, whose transport has no timeout configured. -/
theorem C10_witness :
    ProxiedClient.default.inner = Client.default ∧
    Client.default.timeout = none ∧
    ProxiedClient.default.inner.timeout ≠ some 30 ∧
    ProxiedClient.new_from_config
        (Except.ok (some { endpoint := "", authorization := "" })) =
      Except.ok (ProxiedClient.default,
        [incompleteWarning { endpoint := "", authorization := "" }]) ∧
    ProxiedClient.new_from_config (Except.ok none) =
      Except.ok (ProxiedClient.default, [missingWarning]) :=
  C10_default_transport_settings { endpoint := "", authorization := "" }
    (Or.inl rfl)

end HttpProxy
